import Mathlib

/-!
Shallow embedding of the FoodSaver DZ backend (Express/Mongoose) booking,
offer, store and review logic, translated from:

  * src/backend/models/Notification.js   (second document: bookingSchema,
    its statics `generatePickupCode` and its pre/post 'save' middleware)
  * src/backend/models/Offer.js          (offerSchema with its validators
    and the pre 'remove' cascade)
  * src/backend/models/Store.js          (storeSchema rating field)
  * src/unnamed/part_004                 (second document: reviewSchema and
    `calcAverageRatings` with its post hooks)
  * src/backend/controllers/bookingController.js
  * src/backend/controllers/offerController.js

Modelling conventions:
  * MongoDB documents are Lean structures carrying exactly the schema
    paths the claims need; ids are `Nat`, JS numbers are `Int` (ratings
    averaged as `Rat`), dates are `Int` timestamps, and a request clock
    `now : Int` replaces `new Date()` / `Date.now()`.
  * The database is an in-memory `Db` of document lists; `findByIdAndUpdate`
    / `updateMany` / `deleteMany` are pure list transformations.  Mongoose
    document middleware (`pre('save')`, `post('save')`, `pre('remove')`)
    runs only on `save()` / `create()` / `remove()`, never on
    `findByIdAndUpdate` or `updateMany`; the embedding reproduces this by
    invoking the hook functions only in the code paths that call
    `save`/`create`/`remove` in the source.
  * Schema validation runs on `save()` before the user pre-save hooks, and
    on updates only when the controller passes `runValidators: true`, and
    then only for the paths present in the update.
  * Strict schemas store only declared paths: writes to undeclared paths
    (`ratingCount` on Store/Offer, `isApproved` on Review) are dropped, so
    stored documents never carry them.
  * Notification fan-out, e-mails, socket events and authentication
    middleware are out of scope (spec sections 1 and 6); request
    authorization checks inside the controllers are kept.
-/

namespace FoodSaver

/-- Booking status enum of bookingSchema
(`['pending','confirmed','completed','cancelled','expired','rejected']`). -/
inductive BookingStatus where
  | pending
  | confirmed
  | completed
  | cancelled
  | expired
  | rejected
deriving DecidableEq, Repr

/-- Errors surfaced by the controllers: `ErrorResponse(msg, httpStatus)`
raised explicitly, or a Mongoose validation / cast failure thrown by a
`save`, `create` or `runValidators: true` update. -/
inductive ApiError where
  | http (msg : String) (status : Nat)
  | validation (msg : String)
deriving DecidableEq, Repr

/-- Offer document (offerSchema in src/backend/models/Offer.js), restricted
to the paths the booking/offer controllers read or write. -/
structure OfferDoc where
  id : Nat
  title : String
  originalPrice : Int
  discountedPrice : Int
  quantity : Int
  availableQuantity : Int
  pickupStart : Int
  pickupEnd : Int
  seller : Nat
  store : Nat
  isActive : Bool
  rating : Option Rat
deriving DecidableEq, Repr

/-- Booking document (bookingSchema, second document of
src/backend/models/Notification.js), restricted to the paths the claims
touch.  `cancelledBy` is kept as a raw string because the controllers write
values outside the schema enum. -/
structure BookingDoc where
  id : Nat
  offer : Nat
  user : Nat
  seller : Nat
  quantity : Int
  totalPrice : Int
  status : BookingStatus
  pickupCode : String
  pickupTime : Int
  cancelledBy : Option String
  cancellationReason : Option String
  cancelledAt : Option Int
  completedAt : Option Int
deriving DecidableEq, Repr

/-- Store document (storeSchema in src/backend/models/Store.js): only the
rating path matters here.  The schema declares no `ratingCount` path, so a
stored Store never carries one. -/
structure StoreDoc where
  id : Nat
  owner : Nat
  rating : Option Rat
deriving DecidableEq, Repr

/-- Review document (reviewSchema, second document of src/unnamed/part_004).
The schema declares no `isApproved` path, and strict mode drops undeclared
paths from creates and updates, so `isApproved` is carried as an `Option`
that no write in the embedded code ever populates. -/
structure ReviewDoc where
  id : Nat
  user : Nat
  store : Nat
  offer : Nat
  booking : Nat
  rating : Int
  isDeleted : Bool
  isApproved : Option Bool
deriving DecidableEq, Repr

/-- In-memory database: one list per collection. -/
structure Db where
  offers : List OfferDoc
  bookings : List BookingDoc
  stores : List StoreDoc
  reviews : List ReviewDoc
deriving DecidableEq, Repr

/-- `Offer.findById`. -/
def findOffer (db : Db) (oid : Nat) : Option OfferDoc :=
  db.offers.find? (fun o => o.id = oid)

/-- `Booking.findById`. -/
def findBooking (db : Db) (bid : Nat) : Option BookingDoc :=
  db.bookings.find? (fun b => b.id = bid)

/-- `Store.findById`. -/
def findStore (db : Db) (sid : Nat) : Option StoreDoc :=
  db.stores.find? (fun s => s.id = sid)

/-- `Review.findById`. -/
def findReview (db : Db) (rid : Nat) : Option ReviewDoc :=
  db.reviews.find? (fun r => r.id = rid)

/-- `Offer.findByIdAndUpdate(oid, { $inc: { availableQuantity: delta } })` —
used by the booking pre-save middleware; updates run no document middleware
and (without `runValidators`) no validators. -/
def offerIncAvailable (db : Db) (oid : Nat) (delta : Int) : Db :=
  { db with offers := db.offers.map (fun o =>
      if o.id = oid then { o with availableQuantity := o.availableQuantity + delta } else o) }

/-- Validation of a booking document against bookingSchema: `quantity` has
`min: 1`, `cancelledBy` has `enum: ['user','seller','system']`.  Required
paths are present by construction of `BookingDoc`. -/
def bookingValidate (b : BookingDoc) : Bool :=
  1 ≤ b.quantity &&
    (match b.cancelledBy with
     | none => true
     | some s => s = "user" || s = "seller" || s = "system")

/-- Pre-save middleware of bookingSchema (Notification.js second document,
`bookingSchema.pre('save')`): on a new document `$inc` the offer's
availableQuantity by `-quantity`; additionally, when the status path is
modified and equals 'cancelled', `$inc` it back by `+quantity`.  On a new
document every set path (defaults included) counts as modified, so
`statusModified` is true at creation. -/
def bookingPreSave (db : Db) (b : BookingDoc) (isNew statusModified : Bool) : Db :=
  let db1 := if isNew then offerIncAvailable db b.offer (-b.quantity) else db
  if statusModified && b.status = BookingStatus.cancelled then
    offerIncAvailable db1 b.offer b.quantity
  else db1

/-- `Booking.create(body)`: validation first (it precedes user pre-save
hooks), then the pre-save middleware, then the insert. -/
def bookingCreate (db : Db) (b : BookingDoc) : Except ApiError Db :=
  if bookingValidate b then
    let db1 := bookingPreSave db b true true
    Except.ok { db1 with bookings := db1.bookings ++ [b] }
  else
    Except.error (ApiError.validation "Booking validation failed")

/-- `booking.save()` on an existing document `b2` replacing the stored
version with the same id: validation, then the pre-save middleware with
`isNew := false`. -/
def bookingSave (db : Db) (b2 : BookingDoc) (statusModified : Bool) : Except ApiError Db :=
  if bookingValidate b2 then
    let db1 := bookingPreSave db b2 false statusModified
    Except.ok { db1 with bookings := db1.bookings.map (fun b => if b.id = b2.id then b2 else b) }
  else
    Except.error (ApiError.validation "Booking validation failed")

/-- Alphabet of `Booking.generatePickupCode`
(`'ABCDEFGHJKLMNPQRSTUVWXYZ23456789'`, 32 characters). -/
def pickupAlphabet : List Char := "ABCDEFGHJKLMNPQRSTUVWXYZ23456789".toList

theorem pickupAlphabet_length : pickupAlphabet.length = 32 := by decide

/-- One pass of the inner `for` loop of `generatePickupCode`: six successive
draws `characters.charAt(Math.floor(Math.random()*characters.length))`.
`Math.floor(Math.random()*32)` always lands in `[0, 31]`, so the random
stream is modelled as `rand : Nat → Fin 32`; `pos` indexes the next unused
draw. -/
def mkPickupCode (rand : Nat → Fin 32) (pos : Nat) : String :=
  String.mk ((List.range 6).map (fun i =>
    pickupAlphabet.get (Fin.cast pickupAlphabet_length.symm (rand (pos + i)))))

/-- `Booking.generatePickupCode` (bookingSchema statics): loop until the
generated code collides with no existing booking's pickupCode.  `existing`
is the list of pickup codes of the bookings present at the time of the call
(the `findOne({ pickupCode: code })` probe); the unbounded `while` is given
`fuel`, returning `none` when it is exhausted. -/
def generatePickupCode (existing : List String) (rand : Nat → Fin 32) :
    Nat → Nat → Option String
  | 0, _ => none
  | fuel + 1, pos =>
    let code := mkPickupCode rand pos
    if code ∈ existing then generatePickupCode existing rand fuel (pos + 6)
    else some code

/-- Request body and context of `POST /api/v1/offers/:offerId/bookings`.
The controller overwrites `offer`, `user`, `seller`, `totalPrice`,
`pickupCode` and `pickupTime` in `req.body`, so the client controls only
`quantity` and (since the controller never touches it) `status`. -/
structure AddBookingReq where
  offerId : Nat
  userId : Nat
  userRole : String
  quantity : Option Int
  status : Option BookingStatus
deriving DecidableEq, Repr

/-- JS `req.body.quantity || 1`: `0` (and a missing value) is falsy. -/
def quantityOrOne : Option Int → Int
  | none => 1
  | some q => if q = 0 then 1 else q

/-- Existing-booking probe of addBooking:
`Booking.findOne({ user, offer, status: { $in: ['pending','confirmed'] } })`. -/
def hasActiveBooking (db : Db) (userId offerId : Nat) : Bool :=
  db.bookings.any (fun b =>
    b.user = userId && b.offer = offerId &&
      (b.status = BookingStatus.pending || b.status = BookingStatus.confirmed))

/-- Booking document assembled by `addBooking` before `Booking.create`:
the controller overwrites `offer`, `user`, `seller`
(`req.body.seller = offer.seller`),
`totalPrice = offer.discountedPrice * (req.body.quantity || 1)`,
`pickupCode` and `pickupTime = offer.pickupStart`; the client's `status`
(if any, else the schema default 'pending') passes through untouched. -/
def mkBookingDoc (req : AddBookingReq) (offer : OfferDoc) (newId : Nat)
    (pcode : String) (q : Int) : BookingDoc :=
  { id := newId, offer := req.offerId, user := req.userId,
    seller := offer.seller, quantity := q,
    totalPrice := offer.discountedPrice * quantityOrOne req.quantity,
    status := req.status.getD BookingStatus.pending,
    pickupCode := pcode, pickupTime := offer.pickupStart,
    cancelledBy := none, cancellationReason := none,
    cancelledAt := none, completedAt := none }

/-- `addBooking` (bookingController.js).  `now` is the request clock,
`newId` the id Mongo assigns to the created document and `pcode` the value
returned by `Booking.generatePickupCode` (modelled separately as
`generatePickupCode`).  Notification and e-mail side effects are omitted;
the e-mail failure is caught in the source and cannot change the outcome. -/
def addBooking (db : Db) (req : AddBookingReq) (now : Int) (newId : Nat)
    (pcode : String) : Except ApiError (Nat × BookingDoc × Db) :=
  match findOffer db req.offerId with
  | none => Except.error (ApiError.http "No offer with the id" 404)
  | some offer =>
    if !offer.isActive || offer.availableQuantity ≤ 0 then
      Except.error (ApiError.http "This offer is no longer available" 400)
    else if offer.pickupEnd < now then
      Except.error (ApiError.http "The pickup time for this offer has passed" 400)
    else if req.userId = offer.seller then
      Except.error (ApiError.http "You cannot book your own offer" 400)
    else if hasActiveBooking db req.userId req.offerId then
      Except.error (ApiError.http "You already have a booking for this offer" 400)
    else
      match req.quantity with
      | none =>
        -- bookingSchema: required quantity missing → Booking.create throws
        Except.error (ApiError.validation "Please specify the quantity")
      | some q =>
        match bookingCreate db (mkBookingDoc req offer newId pcode q) with
        | Except.error e => Except.error e
        | Except.ok db1 => Except.ok (201, mkBookingDoc req offer newId pcode q, db1)

/-- Transition table of `updateBooking`
(`validTransitions[booking.status].includes(status)`). -/
def validTransitions : BookingStatus → BookingStatus → Bool
  | BookingStatus.pending, BookingStatus.confirmed => true
  | BookingStatus.pending, BookingStatus.cancelled => true
  | BookingStatus.confirmed, BookingStatus.completed => true
  | BookingStatus.confirmed, BookingStatus.cancelled => true
  | _, _ => false

/-- Request of `PUT /api/v1/bookings/:id`. -/
structure UpdateBookingReq where
  bookingId : Nat
  userId : Nat
  userRole : String
  status : Option BookingStatus
  cancellationReason : Option String
deriving DecidableEq, Repr

/-- The booking as rewritten by `updateBooking`'s updateObj: the requested
status, plus — on cancellation — `cancelledAt := Date.now()`, `cancelledBy`
('admin' for an admin caller, else 'user' or 'seller' by comparison with the
booking's user) and the optional cancellationReason; on completion,
`completedAt := Date.now()`. -/
def updateBookingDoc (booking : BookingDoc) (req : UpdateBookingReq)
    (status : BookingStatus) (now : Int) : BookingDoc :=
  if status = BookingStatus.cancelled then
    { booking with
      status := status,
      cancelledAt := some now,
      cancelledBy := some (if req.userRole = "admin" then "admin"
        else if req.userId = booking.user then "user" else "seller"),
      cancellationReason :=
        match req.cancellationReason with
        | some r => some r
        | none => booking.cancellationReason }
  else if status = BookingStatus.completed then
    { booking with status := status, completedAt := some now }
  else
    { booking with status := status }

/-- The update object `updateBooking` builds, then applies with
`Booking.findByIdAndUpdate(id, updateObj, { new: true, runValidators: true })`.
`findByIdAndUpdate` runs NO document middleware: the `pre('save')` quantity
restore of bookingSchema is not triggered on this path.  `runValidators`
checks the updated paths only, so the `cancelledBy` enum
`['user','seller','system']` is enforced here. -/
def updateBooking (db : Db) (req : UpdateBookingReq) (now : Int) :
    Except ApiError (Nat × Db) :=
  match findBooking db req.bookingId with
  | none => Except.error (ApiError.http "No booking with the id" 404)
  | some booking =>
    if booking.user ≠ req.userId && booking.seller ≠ req.userId &&
        req.userRole ≠ "admin" then
      Except.error (ApiError.http "User is not authorized to update this booking" 401)
    else
      match req.status with
      | none =>
        -- empty updateObj: findByIdAndUpdate changes nothing
        Except.ok (200, db)
      | some status =>
        if !validTransitions booking.status status then
          Except.error (ApiError.http "Invalid status transition" 400)
        else
          if bookingValidate (updateBookingDoc booking req status now) then
            -- no save middleware on findByIdAndUpdate: offers untouched
            Except.ok (200, { db with bookings := db.bookings.map (fun b =>
              if b.id = req.bookingId then updateBookingDoc booking req status now
              else b) })
          else
            Except.error (ApiError.validation "Booking validation failed")

/-- `completeBookingWithCode` (bookingController.js): look up a booking by
pickup code with status pending or confirmed, check the caller is the
seller, set status to 'completed' and `save()` — the save path does run
the bookingSchema middleware (the status is not 'cancelled', so the offer
is untouched; the post-save rating hook fires only when the booking carries
a rating, which this embedding's bookings never do). -/
def completeBookingWithCode (db : Db) (code : String) (userId : Nat) (now : Int) :
    Except ApiError (Nat × Db) :=
  match db.bookings.find? (fun b =>
      b.pickupCode = code &&
        (b.status = BookingStatus.pending || b.status = BookingStatus.confirmed)) with
  | none => Except.error (ApiError.http "Invalid or expired pickup code" 404)
  | some booking =>
    if booking.seller ≠ userId then
      Except.error (ApiError.http "You are not authorized to complete this booking" 401)
    else
      match bookingSave db
          { booking with
            status := BookingStatus.completed,
            completedAt := some now } true with
      | Except.error e => Except.error e
      | Except.ok db1 => Except.ok (200, db1)

/-- Validation of an offer document against offerSchema on `save()`:
`originalPrice` has `min: 0`, `discountedPrice` has the custom validator
`value < this.originalPrice`, `quantity` has `min: 1`, `pickupEnd` has the
custom validator `value > this.pickupStart`, and `rating` has `min: 1`,
`max: 5` when present.  Required paths are present by construction; string
length bounds and the category enum are not carried by `OfferDoc` and so
not modelled (they only add further rejection reasons). -/
def offerValidate (o : OfferDoc) : Bool :=
  0 ≤ o.originalPrice &&
  o.discountedPrice < o.originalPrice &&
  1 ≤ o.quantity &&
  o.pickupStart < o.pickupEnd &&
  (match o.rating with
   | none => true
   | some r => 1 ≤ r && r ≤ 5)

/-- `Offer.create(body)` (used by createOffer): schema validation, then
insert.  `availableQuantity` defaults to `this.quantity` when absent, which
the caller reproduces by constructing the document. -/
def offerCreate (db : Db) (o : OfferDoc) : Except ApiError Db :=
  if offerValidate o then
    Except.ok { db with offers := db.offers ++ [o] }
  else
    Except.error (ApiError.validation "Offer validation failed")

/-- Body of `PUT /api/v1/offers/:id`, restricted to paths whose update
validators Mongoose can run (the `discountedPrice` and `pickupEnd` custom
validators dereference `this`, which is not bound on the update path, and
are left out).  Absent fields are not part of the update. -/
structure UpdateOfferBody where
  title : Option String
  quantity : Option Int
  isActive : Option Bool
deriving DecidableEq, Repr

/-- `runValidators` on an update: the `min: 1` validator of offerSchema
fails when the body updates `quantity` to a value below 1. -/
def quantityUpdateInvalid (body : UpdateOfferBody) : Bool :=
  match body.quantity with
  | some q => q < 1
  | none => false

/-- `runValidators` on an update: an updated `title` path first passes the
schema's `trim: true` setter, then the `maxlength: 100` validator fails
when the trimmed title exceeds 100 characters. -/
def titleUpdateInvalid (body : UpdateOfferBody) : Bool :=
  match body.title with
  | some t => 100 < t.trim.length
  | none => false

/-- `updateOffer` (offerController.js): after the 404 and ownership checks,
`if (req.body.quantity)` — a truthiness test, so a quantity of `0` skips
the adjustment — sets
`req.body.availableQuantity = Math.max(0, availableQuantity + (newQuantity - quantity))`,
then `Offer.findByIdAndUpdate(id, req.body, { new: true, runValidators: true })`:
no document middleware; the validators of the updated paths run —
`min: 1` on `quantity`, trim-then-`maxlength: 100` on `title` — rejecting
the whole update when one fails (Mongoose collects every update-validator
failure into one ValidationError; the embedding surfaces the quantity
message first). -/
def updateOffer (db : Db) (offerId userId : Nat) (role : String)
    (body : UpdateOfferBody) : Except ApiError (Nat × Db) :=
  match findOffer db offerId with
  | none => Except.error (ApiError.http "No offer with the id" 404)
  | some offer =>
    if offer.seller ≠ userId && role ≠ "admin" then
      Except.error (ApiError.http "User is not authorized to update this offer" 401)
    else
      if quantityUpdateInvalid body then
        -- runValidators: quantity min 1 fails, nothing is written
        Except.error (ApiError.validation "Quantity must be at least 1")
      else if titleUpdateInvalid body then
        -- runValidators: trimmed title over 100 characters, nothing is written
        Except.error (ApiError.validation "Title cannot be more than 100 characters")
      else
        match body.quantity with
        | some q =>
          let o2 : OfferDoc :=
            { offer with
              title := (body.title.map String.trim).getD offer.title,
              isActive := body.isActive.getD offer.isActive,
              quantity := q,
              availableQuantity :=
                if q ≠ 0 then max 0 (offer.availableQuantity + (q - offer.quantity))
                else offer.availableQuantity }
          let offers2 := db.offers.map (fun o => if o.id = offerId then o2 else o)
          Except.ok (200, { db with offers := offers2 })
        | none =>
          let o2 : OfferDoc :=
            { offer with
              title := (body.title.map String.trim).getD offer.title,
              isActive := body.isActive.getD offer.isActive }
          let offers2 := db.offers.map (fun o => if o.id = offerId then o2 else o)
          Except.ok (200, { db with offers := offers2 })

/-- Cancellation phase of `deleteOffer`:
`Booking.updateMany({ offer, status: { $in: ['pending','confirmed'] } }, {...})`.
`updateMany` runs neither document middleware (no quantity restore) nor,
without `runValidators`, validators (so `cancelledBy: 'admin'`, outside the
schema enum, is written anyway). -/
def cancelOfferBookings (db : Db) (offerId : Nat) (role : String) : Db :=
  { db with bookings := db.bookings.map (fun b =>
      if b.offer = offerId &&
          (b.status = BookingStatus.pending || b.status = BookingStatus.confirmed) then
        { b with
          status := BookingStatus.cancelled,
          cancelledBy := some (if role = "admin" then "admin" else "seller"),
          cancellationReason := some "Offer was deleted by the seller" }
      else b) }

/-- `offer.remove()`: the `pre('remove')` hook of offerSchema deletes every
booking referencing the offer (`Booking.deleteMany({ offer: this._id })`),
then the offer document itself is removed.  The `post('remove')` call to
`getAverageRating` updates the already-deleted offer and is a no-op. -/
def offerRemove (db : Db) (offerId : Nat) : Db :=
  { db with
    bookings := db.bookings.filter (fun b => b.offer ≠ offerId),
    offers := db.offers.filter (fun o => o.id ≠ offerId) }

/-- `deleteOffer` (offerController.js): 404 check, ownership check, cancel
all pending/confirmed bookings of the offer, then `offer.remove()`. -/
def deleteOffer (db : Db) (offerId userId : Nat) (role : String) :
    Except ApiError (Nat × Db) :=
  match findOffer db offerId with
  | none => Except.error (ApiError.http "No offer with the id" 404)
  | some offer =>
    if offer.seller ≠ userId && role ≠ "admin" then
      Except.error (ApiError.http "User is not authorized to delete this offer" 401)
    else
      Except.ok (200, offerRemove (cancelOfferBookings db offerId role) offerId)

/-- Validation of a store document against storeSchema on `save()`:
`rating` has `min: 1`, `max: 5` when present. -/
def storeValidate (s : StoreDoc) : Bool :=
  match s.rating with
  | none => true
  | some r => 1 ≤ r && r ≤ 5

/-- `Store.findByIdAndUpdate(storeId, { rating, ratingCount })` as used by
`calcAverageRatings`: no validators are run (no `runValidators`), and the
`ratingCount` path does not exist in storeSchema, so strict mode drops it —
only `rating` is written. -/
def storeSetRating (db : Db) (storeId : Nat) (r : Rat) : Db :=
  { db with stores := db.stores.map (fun s =>
      if s.id = storeId then { s with rating := some r } else s) }

/-- Reviews counted by `Review.calcAverageRatings`:
`$match: { store: storeId, isDeleted: { $ne: true } }`. -/
def storeReviews (db : Db) (storeId : Nat) : List ReviewDoc :=
  db.reviews.filter (fun r => r.store = storeId && !r.isDeleted)

/-- `reviewSchema.statics.calcAverageRatings` (src/unnamed/part_004):
aggregate the store's non-deleted reviews; if any, write their average
rating (and a `ratingCount` that storeSchema drops), else write rating 0. -/
def calcAverageRatings (db : Db) (storeId : Nat) : Db :=
  let rs := storeReviews db storeId
  if rs.length > 0 then
    storeSetRating db storeId ((rs.map (fun r => (r.rating : Rat))).sum / rs.length)
  else
    storeSetRating db storeId 0

/-- Reviews counted by the controller helper `calculateAverageRating`:
`$match: { [type]: id, isApproved: true }`.  Stored review documents never
carry an `isApproved` path (reviewSchema declares none and strict mode
drops it from every write), so the equality match against `true` requires
the field to be present with that value. -/
def approvedReviewsFor (db : Db) (id : Nat) (isStore : Bool) : List ReviewDoc :=
  db.reviews.filter (fun r =>
    (if isStore then r.store = id else r.offer = id) && r.isApproved = some true)

/-- Controller helper `calculateAverageRating(id, 'store')`
(offerController.js): aggregate the matching approved reviews; set
`obj.rating`/`obj.ratingCount` (0/0 when no stats) and `obj.save()` inside
`try { ... } catch` — a failed save (rating 0 violates the `min: 1`
validator) is logged and swallowed, leaving the store unchanged.
`ratingCount` is not a storeSchema path and is never persisted. -/
def calculateAverageRatingStore (db : Db) (storeId : Nat) : Db :=
  match findStore db storeId with
  | none => db
  | some store =>
    let stats := approvedReviewsFor db storeId true
    let newRating : Rat :=
      if stats.length > 0 then (stats.map (fun r => (r.rating : Rat))).sum / stats.length
      else 0
    let s2 := { store with rating := some newRating }
    if storeValidate s2 then
      { db with stores := db.stores.map (fun s => if s.id = storeId then s2 else s) }
    else
      db

/-- Controller helper `calculateAverageRating(id, 'offer')`: same shape as
the store variant, saving through offerSchema validation (`rating` also has
`min: 1`, so the rating-0 write always fails and is swallowed). -/
def calculateAverageRatingOffer (db : Db) (offerId : Nat) : Db :=
  match findOffer db offerId with
  | none => db
  | some offer =>
    let stats := approvedReviewsFor db offerId false
    let newRating : Rat :=
      if stats.length > 0 then (stats.map (fun r => (r.rating : Rat))).sum / stats.length
      else 0
    let o2 := { offer with rating := some newRating }
    if offerValidate o2 then
      { db with offers := db.offers.map (fun o => if o.id = offerId then o2 else o) }
    else
      db

/-- Validation of a review document against reviewSchema: `rating` is
required with `min: 1`, `max: 5`. -/
def reviewValidate (r : ReviewDoc) : Bool :=
  1 ≤ r.rating && r.rating ≤ 5

/-- `Review.create(body)` followed by the `reviewSchema.post('save')` hook,
which calls `calcAverageRatings(this.store)`.  Strict mode keeps
`isApproved` off the stored document whatever the client sent. -/
def reviewCreate (db : Db) (r : ReviewDoc) : Except ApiError Db :=
  let r2 := { r with isApproved := none }
  if reviewValidate r2 then
    let db1 := { db with reviews := db.reviews ++ [r2] }
    Except.ok (calcAverageRatings db1 r2.store)
  else
    Except.error (ApiError.validation "Review validation failed")

/-- `addReview` (offerController.js), offer branch
(`POST /api/v1/offers/:offerId/reviews`): 404 on a missing offer; 401
unless the caller has a completed booking for the offer or is admin; 400 on
an existing review by the caller for the offer; then `Review.create`
(post-save hook recomputes the store rating) followed by the controller's
`calculateAverageRating` for the store and, the offer path being required
by reviewSchema, for the offer.  Notifications are omitted. -/
def addReview (db : Db) (offerId userId : Nat) (role : String)
    (r : ReviewDoc) : Except ApiError (Nat × Db) :=
  match findOffer db offerId with
  | none => Except.error (ApiError.http "No offer with the id" 404)
  | some _ =>
    if !(db.bookings.any (fun b =>
          b.user = userId && b.offer = offerId &&
            b.status = BookingStatus.completed)) && role ≠ "admin" then
      Except.error (ApiError.http "User is not authorized to add a review for this offer" 401)
    else if db.reviews.any (fun q => q.user = userId && q.offer = offerId) then
      Except.error (ApiError.http "User has already reviewed this offer" 400)
    else
      match reviewCreate db { r with user := userId, offer := offerId } with
      | Except.error e => Except.error e
      | Except.ok db1 =>
        let db2 := calculateAverageRatingStore db1 r.store
        let db3 := calculateAverageRatingOffer db2 offerId
        Except.ok (201, db3)

/-- `deleteReview` (offerController.js): 404 on a missing review, 401
unless the caller owns it or is admin, then `review.remove()` — reviewSchema
registers no remove middleware, so no hook recomputes anything — followed by
the controller's `calculateAverageRating` for the stored store and offer
references. -/
def deleteReview (db : Db) (reviewId userId : Nat) (role : String) :
    Except ApiError (Nat × Db) :=
  match findReview db reviewId with
  | none => Except.error (ApiError.http "No review with the id" 404)
  | some review =>
    if review.user ≠ userId && role ≠ "admin" then
      Except.error (ApiError.http "User is not authorized to delete this review" 401)
    else
      let db1 := { db with reviews := db.reviews.filter (fun r => r.id ≠ reviewId) }
      let db2 := calculateAverageRatingStore db1 review.store
      let db3 := calculateAverageRatingOffer db2 review.offer
      Except.ok (200, db3)

/-! ## Offer validation (claim C8) -/

/-- Unfolding of `offerValidate` into its conjuncts. -/
theorem offerValidate_eq_true_iff (o : OfferDoc) :
    offerValidate o = true ↔
      (0 ≤ o.originalPrice ∧ o.discountedPrice < o.originalPrice ∧
       1 ≤ o.quantity ∧ o.pickupStart < o.pickupEnd ∧
       (∀ r, o.rating = some r → 1 ≤ r ∧ r ≤ 5)) := by
  unfold offerValidate
  cases hr : o.rating <;>
    simp [Bool.and_eq_true, decide_eq_true_eq, hr] <;> tauto

/-- C8: the application layer enforces the soft invariants on offers — a
save through offerSchema accepts the document only when discountedPrice is
strictly below originalPrice and pickupEnd is strictly after pickupStart,
and a document violating either is rejected with a validation error. -/
theorem offer_soft_invariants (db : Db) (o : OfferDoc) :
    (∀ db2, offerCreate db o = Except.ok db2 →
      o.discountedPrice < o.originalPrice ∧ o.pickupStart < o.pickupEnd) ∧
    (¬(o.discountedPrice < o.originalPrice ∧ o.pickupStart < o.pickupEnd) →
      offerCreate db o = Except.error (ApiError.validation "Offer validation failed")) := by
  constructor
  · intro db2 h
    unfold offerCreate at h
    by_cases hv : offerValidate o = true
    · have := (offerValidate_eq_true_iff o).mp hv
      exact ⟨this.2.1, this.2.2.2.1⟩
    · simp [hv] at h
  · intro hnot
    unfold offerCreate
    have hv : ¬ offerValidate o = true := by
      intro hv
      have := (offerValidate_eq_true_iff o).mp hv
      exact hnot ⟨this.2.1, this.2.2.2.1⟩
    simp [hv]

/-- C8 witness: a concrete offer whose discounted price is not below its
original price is rejected. -/
theorem offer_soft_invariants_witness :
    offerCreate { offers := [], bookings := [], stores := [], reviews := [] }
        { id := 7, title := "Cake", originalPrice := 50, discountedPrice := 60,
          quantity := 3, availableQuantity := 3, pickupStart := 10, pickupEnd := 20,
          seller := 2, store := 1, isActive := true, rating := none } =
      Except.error (ApiError.validation "Offer validation failed") :=
  (offer_soft_invariants
    { offers := [], bookings := [], stores := [], reviews := [] }
    { id := 7, title := "Cake", originalPrice := 50, discountedPrice := 60,
      quantity := 3, availableQuantity := 3, pickupStart := 10, pickupEnd := 20,
      seller := 2, store := 1, isActive := true, rating := none }).2 (by decide)

/-! ## Pickup codes (claim C6) -/

/-- Characters of `mkPickupCode` are drawn from the alphabet. -/
theorem mkPickupCode_mem_alphabet (rand : Nat → Fin 32) (pos : Nat) :
    ∀ c ∈ (mkPickupCode rand pos).data, c ∈ pickupAlphabet := by
  intro c hc
  unfold mkPickupCode at hc
  simp only [String.mk] at hc
  rcases List.mem_map.mp hc with ⟨i, _, rfl⟩
  exact List.get_mem _ _ _

/-- Length of `mkPickupCode` is six. -/
theorem mkPickupCode_length (rand : Nat → Fin 32) (pos : Nat) :
    (mkPickupCode rand pos).length = 6 := by
  unfold mkPickupCode
  simp [String.length]

/-- C6: every value `Booking.generatePickupCode` returns is a 6-character
string over the alphabet `ABCDEFGHJKLMNPQRSTUVWXYZ23456789` and differs
from every pickup code existing at the time of the call. -/
theorem generatePickupCode_spec (existing : List String) (rand : Nat → Fin 32)
    (fuel pos : Nat) (code : String)
    (h : generatePickupCode existing rand fuel pos = some code) :
    code.length = 6 ∧ (∀ c ∈ code.data, c ∈ pickupAlphabet) ∧ code ∉ existing := by
  induction fuel generalizing pos with
  | zero => simp [generatePickupCode] at h
  | succ n ih =>
    unfold generatePickupCode at h
    by_cases hm : mkPickupCode rand pos ∈ existing
    · rw [if_pos hm] at h
      exact ih _ h
    · rw [if_neg hm] at h
      cases h
      exact ⟨mkPickupCode_length rand pos, mkPickupCode_mem_alphabet rand pos, hm⟩

/-- Random stream for the C6 witness: the draw at position `n` is `n % 32`. -/
def randW : Nat → Fin 32 := fun n => ⟨n % 32, Nat.mod_lt n (by norm_num)⟩

/-- C6 witness: a concrete call returning "ABCDEF", which is 6 characters
over the alphabet and absent from the existing codes. -/
theorem generatePickupCode_spec_witness :
    ("ABCDEF" : String).length = 6 ∧
      (∀ c ∈ ("ABCDEF" : String).data, c ∈ pickupAlphabet) ∧
      ("ABCDEF" : String) ∉ (["AAAAAA"] : List String) :=
  generatePickupCode_spec ["AAAAAA"] randW 1 0 "ABCDEF" (by decide)

/-! ## Booking creation and offer availability (claims C2, C4, C5) -/

/-- Looking an offer up after an `$inc` of its availableQuantity. -/
theorem find_map_inc (os : List OfferDoc) (oid : Nat) (d : Int) :
    (os.map (fun o =>
        if o.id = oid then { o with availableQuantity := o.availableQuantity + d }
        else o)).find? (fun o => o.id = oid) =
      (os.find? (fun o => o.id = oid)).map
        (fun o => { o with availableQuantity := o.availableQuantity + d }) := by
  induction os with
  | nil => rfl
  | cons o os ih =>
    by_cases hid : o.id = oid
    · simp [List.find?_cons, hid]
    · simp [List.find?_cons, hid, ih]

theorem findOffer_inc (db : Db) (oid : Nat) (d : Int) :
    findOffer (offerIncAvailable db oid d) oid =
      (findOffer db oid).map
        (fun o => { o with availableQuantity := o.availableQuantity + d }) := by
  unfold findOffer offerIncAvailable
  exact find_map_inc db.offers oid d

/-- Neither branch of the booking pre-save middleware touches the bookings
collection. -/
theorem bookingPreSave_bookings (db : Db) (b : BookingDoc) (hn hm : Bool) :
    (bookingPreSave db b hn hm).bookings = db.bookings := by
  unfold bookingPreSave offerIncAvailable
  split <;> split <;> rfl

/-- Success shape of `addBooking`: the offer exists, was active with
positive availability, the requested quantity passed the schema minimum, and
the created booking carries the fields the controller computed, while the
database gained the booking and the pre-save hook's offer adjustment. -/
theorem addBooking_ok (db : Db) (req : AddBookingReq) (now : Int) (newId : Nat)
    (pcode : String) (st : Nat) (b : BookingDoc) (db2 : Db)
    (h : addBooking db req now newId pcode = Except.ok (st, b, db2)) :
    ∃ offer q, findOffer db req.offerId = some offer ∧ req.quantity = some q ∧
      1 ≤ q ∧ st = 201 ∧
      offer.isActive = true ∧ 0 < offer.availableQuantity ∧
      b.offer = req.offerId ∧ b.user = req.userId ∧ b.seller = offer.seller ∧
      b.quantity = q ∧ b.totalPrice = offer.discountedPrice * q ∧
      b.pickupTime = offer.pickupStart ∧
      b.status = req.status.getD BookingStatus.pending ∧
      db2.offers = (bookingPreSave db b true true).offers ∧
      db2.bookings = db.bookings ++ [b] := by
  unfold addBooking at h
  split at h
  · cases h
  next offer hof =>
    split_ifs at h with hAct hPast hOwn hDup
    simp only [Bool.or_eq_true, Bool.not_eq_true', decide_eq_true_eq, not_or] at hAct
    obtain ⟨hActive, hAvail⟩ := hAct
    replace hActive : offer.isActive = true := by simpa using hActive
    split at h
    · cases h
    next q hq =>
      split at h
      · cases h
      next db1 hcr =>
        unfold bookingCreate at hcr
        split at hcr
        next hv =>
          simp only [Except.ok.injEq] at hcr
          simp only [Except.ok.injEq, Prod.mk.injEq] at h
          obtain ⟨hst, hb, hdb2⟩ := h
          have hq1 : 1 ≤ q := by
            simpa [bookingValidate, mkBookingDoc] using hv
          subst hb
          subst hdb2
          subst hcr
          refine ⟨offer, q, hof, hq, hq1, hst.symm, hActive, by omega,
            rfl, rfl, rfl, rfl, ?_, rfl, rfl, rfl, ?_⟩
          · simp only [mkBookingDoc, quantityOrOne, hq]
            rw [if_neg (by omega)]
          · dsimp only
            rw [bookingPreSave_bookings]
        · cases hcr

/-- Equality of controller results is decidable (used to evaluate the
embedded controllers at concrete inputs). -/
instance exceptDecEq {ε α : Type} [DecidableEq ε] [DecidableEq α] :
    DecidableEq (Except ε α) := fun x y =>
  match x, y with
  | Except.error a, Except.error b =>
    if h : a = b then isTrue (by rw [h]) else isFalse (by simp [h])
  | Except.ok a, Except.ok b =>
    if h : a = b then isTrue (by rw [h]) else isFalse (by simp [h])
  | Except.error _, Except.ok _ => isFalse (by simp)
  | Except.ok _, Except.error _ => isFalse (by simp)

/-- Reduction of the pre-save middleware on a new document. -/
theorem bookingPreSave_new (db : Db) (b : BookingDoc) :
    bookingPreSave db b true true =
      (if b.status = BookingStatus.cancelled then
        offerIncAvailable (offerIncAvailable db b.offer (-b.quantity)) b.offer b.quantity
      else offerIncAvailable db b.offer (-b.quantity)) := by
  unfold bookingPreSave
  by_cases hc : b.status = BookingStatus.cancelled <;> simp [hc]

/-- Net effect of a booking creation on the booked offer's
availableQuantity: the pre-save hook decrements it by the booking's
quantity, and — the status path being modified on a new document — restores
it at once when the booking is created already in status 'cancelled'. -/
theorem addBooking_avail (db : Db) (req : AddBookingReq) (now : Int) (newId : Nat)
    (pcode : String) (st : Nat) (b : BookingDoc) (db2 : Db)
    (h : addBooking db req now newId pcode = Except.ok (st, b, db2)) :
    (findOffer db2 req.offerId).map OfferDoc.availableQuantity =
      (findOffer db req.offerId).map (fun o =>
        o.availableQuantity - b.quantity +
          (if b.status = BookingStatus.cancelled then b.quantity else 0)) := by
  obtain ⟨offer, q, hof, hq, hq1, hst, hActive, hAvail, hboff, hbuser, hbsell,
    hbq, hbtp, hbpt, hbst, hOffers, hBookings⟩ :=
    addBooking_ok db req now newId pcode st b db2 h
  have hfo2 : findOffer db2 req.offerId =
      findOffer (bookingPreSave db b true true) req.offerId := by
    unfold findOffer
    rw [hOffers]
  rw [hfo2, bookingPreSave_new, hboff]
  by_cases hc : b.status = BookingStatus.cancelled
  · rw [if_pos hc, findOffer_inc, findOffer_inc, hof]
    simp only [Option.map_some']
    rw [if_pos hc]
    congr 1
  · rw [if_neg hc, findOffer_inc, hof]
    simp only [Option.map_some']
    rw [if_neg hc]
    congr 1
    omega

/-! ### Concrete fixtures -/

/-- Sample active offer: 5 of 5 left, 40 DZD (from 100), pickup window
[10, 20], seller 20, store 1. -/
def offerA : OfferDoc :=
  { id := 1, title := "Bread", originalPrice := 100, discountedPrice := 40,
    quantity := 5, availableQuantity := 5, pickupStart := 10, pickupEnd := 20,
    seller := 20, store := 1, isActive := true, rating := none }

/-- Same offer with only 1 unit left. -/
def offerLow : OfferDoc := { offerA with id := 2, availableQuantity := 1 }

/-- Database holding just `offerA`. -/
def dbOfferOnly : Db := { offers := [offerA], bookings := [], stores := [], reviews := [] }

/-- Database holding just `offerLow`. -/
def dbOfferLow : Db := { offers := [offerLow], bookings := [], stores := [], reviews := [] }

/-- Standard booking request: user 10 books 2 units of offer 1. -/
def reqStd : AddBookingReq :=
  { offerId := 1, userId := 10, userRole := "user", quantity := some 2, status := none }

/-- The booking `addBooking dbOfferOnly reqStd` creates. -/
def bookingStd : BookingDoc := mkBookingDoc reqStd offerA 1 "CODE11" 2

/-- The database after that creation: 3 units left, one pending booking. -/
def dbAfterStd : Db :=
  { offers := [{ offerA with availableQuantity := 3 }], bookings := [bookingStd],
    stores := [], reviews := [] }

/-- C2 (amended): booking creation changes the booked offer's
availableQuantity by `-quantity`, plus `+quantity` again when the booking
is created directly in status 'cancelled' (both branches of the pre-save
hook fire on a new document), so the net decrement is the booking's
quantity except for cancelled-at-creation bookings, where it is zero. -/
theorem addBooking_creation_quantity_decrement (db : Db) (req : AddBookingReq)
    (now : Int) (newId : Nat) (pcode : String) (st : Nat) (b : BookingDoc) (db2 : Db)
    (h : addBooking db req now newId pcode = Except.ok (st, b, db2)) :
    (findOffer db2 req.offerId).map OfferDoc.availableQuantity =
      (findOffer db req.offerId).map (fun o =>
        o.availableQuantity - b.quantity +
          (if b.status = BookingStatus.cancelled then b.quantity else 0)) :=
  addBooking_avail db req now newId pcode st b db2 h

/-- C2 witness: creating the standard booking (quantity 2, status not
'cancelled') takes offer 1 from 5 to 3 available. -/
theorem addBooking_creation_quantity_decrement_witness :
    (findOffer dbAfterStd 1).map OfferDoc.availableQuantity =
      (findOffer dbOfferOnly 1).map (fun o =>
        o.availableQuantity - bookingStd.quantity +
          (if bookingStd.status = BookingStatus.cancelled then bookingStd.quantity else 0)) :=
  addBooking_creation_quantity_decrement dbOfferOnly reqStd 15 1 "CODE11" 201
    bookingStd dbAfterStd (by decide)

/-- Request creating a booking directly in status 'cancelled' (the
controller passes the client's `status` through to `Booking.create`). -/
def reqCancelledAtCreation : AddBookingReq :=
  { offerId := 1, userId := 10, userRole := "user", quantity := some 2,
    status := some BookingStatus.cancelled }

/-- C2 counterexample: a booking created with body status 'cancelled'
succeeds and leaves offer 1's availableQuantity at 5 — not decremented by
the booking's quantity 2 (which would give 3): the pre-save hook's
decrement is immediately undone by its cancellation-restore branch. -/
theorem addBooking_cancelled_creation_counterexample :
    (addBooking dbOfferOnly reqCancelledAtCreation 15 1 "CODE11").map
        (fun p => (findOffer p.2.2 1).map OfferDoc.availableQuantity) =
      Except.ok (some 5) ∧
    (addBooking dbOfferOnly reqCancelledAtCreation 15 1 "CODE11").map
        (fun p => (findOffer p.2.2 1).map OfferDoc.availableQuantity) ≠
      Except.ok (some 3) := by
  decide

/-- C4 (amended): a single sequential `addBooking` leaves the offer's
availableQuantity non-negative provided the requested quantity is at most
the available quantity; `addBooking` itself enforces only
`availableQuantity > 0`, not this bound. -/
theorem addBooking_nonneg_when_within_stock (db : Db) (req : AddBookingReq)
    (now : Int) (newId : Nat) (pcode : String) (st : Nat) (b : BookingDoc) (db2 : Db)
    (offer : OfferDoc) (q : Int)
    (hof : findOffer db req.offerId = some offer)
    (hq : req.quantity = some q)
    (hle : q ≤ offer.availableQuantity)
    (h : addBooking db req now newId pcode = Except.ok (st, b, db2)) :
    ∀ o2, findOffer db2 req.offerId = some o2 → 0 ≤ o2.availableQuantity := by
  intro o2 ho2
  obtain ⟨offer1, q1, hof1, hq1, hq11, hst, hActive, hAvail, hboff, hbuser, hbsell,
    hbq, hbtp, hbpt, hbst, hOffers, hBookings⟩ :=
    addBooking_ok db req now newId pcode st b db2 h
  have hoe : offer1 = offer := by
    rw [hof] at hof1
    exact (Option.some_inj.mp hof1).symm
  have hqe : q1 = q := by
    rw [hq] at hq1
    exact (Option.some_inj.mp hq1).symm
  subst hoe hqe
  have havail := addBooking_avail db req now newId pcode st b db2 h
  rw [ho2, hof] at havail
  simp only [Option.map_some', Option.some.injEq] at havail
  rw [havail, hbq]
  by_cases hc : b.status = BookingStatus.cancelled
  · rw [if_pos hc]; omega
  · rw [if_neg hc]; omega

/-- C4 witness: booking 2 of the 5 available units leaves 3 ≥ 0. -/
theorem addBooking_nonneg_when_within_stock_witness :
    ((2 : Int) ≤ 5) ∧ (0 : Int) ≤ 3 :=
  ⟨by norm_num,
    addBooking_nonneg_when_within_stock dbOfferOnly reqStd 15 1 "CODE11" 201
      bookingStd dbAfterStd offerA 2 (by decide) (by decide) (by decide) (by decide)
      { offerA with availableQuantity := 3 } (by decide)⟩

/-- Request overshooting the stock: 5 units of an offer with 1 available. -/
def reqOver : AddBookingReq :=
  { offerId := 2, userId := 10, userRole := "user", quantity := some 5, status := none }

/-- C4 counterexample: one sequential `addBooking` of 5 units against an
offer with availableQuantity 1 (positive) succeeds — the controller checks
only `availableQuantity > 0`, never `quantity ≤ availableQuantity` — and
drives the availableQuantity to −4 < 0, with no race involved. -/
theorem addBooking_oversell_counterexample :
    (addBooking dbOfferLow reqOver 15 1 "CODE11").map
        (fun p => (findOffer p.2.2 2).map OfferDoc.availableQuantity) =
      Except.ok (some (-4)) ∧ ((-4 : Int) < 0) := by
  decide

/-- C5 (amended): `addBooking` raises its errors in exactly the order the
controller checks them — missing offer (404); inactive offer or
availableQuantity ≤ 0 (400); pickupEnd already past (400); caller is the
offer's seller (400); caller already holds a pending/confirmed booking for
the offer (400) — and additionally fails with a schema validation error
when the request's quantity is missing or below 1; only otherwise does it
create the booking, whose seller is the offer's seller, whose totalPrice is
discountedPrice times the requested quantity and whose pickupTime is the
offer's pickupStart, answering 201. -/
theorem addBooking_error_characterization (db : Db) (req : AddBookingReq)
    (now : Int) (newId : Nat) (pcode : String) :
    (findOffer db req.offerId = none →
      addBooking db req now newId pcode =
        Except.error (ApiError.http "No offer with the id" 404)) ∧
    (∀ offer, findOffer db req.offerId = some offer →
      (offer.isActive = false ∨ offer.availableQuantity ≤ 0) →
      addBooking db req now newId pcode =
        Except.error (ApiError.http "This offer is no longer available" 400)) ∧
    (∀ offer, findOffer db req.offerId = some offer →
      offer.isActive = true → 0 < offer.availableQuantity →
      offer.pickupEnd < now →
      addBooking db req now newId pcode =
        Except.error (ApiError.http "The pickup time for this offer has passed" 400)) ∧
    (∀ offer, findOffer db req.offerId = some offer →
      offer.isActive = true → 0 < offer.availableQuantity →
      now ≤ offer.pickupEnd → req.userId = offer.seller →
      addBooking db req now newId pcode =
        Except.error (ApiError.http "You cannot book your own offer" 400)) ∧
    (∀ offer, findOffer db req.offerId = some offer →
      offer.isActive = true → 0 < offer.availableQuantity →
      now ≤ offer.pickupEnd → req.userId ≠ offer.seller →
      hasActiveBooking db req.userId req.offerId = true →
      addBooking db req now newId pcode =
        Except.error (ApiError.http "You already have a booking for this offer" 400)) ∧
    (∀ offer, findOffer db req.offerId = some offer →
      offer.isActive = true → 0 < offer.availableQuantity →
      now ≤ offer.pickupEnd → req.userId ≠ offer.seller →
      hasActiveBooking db req.userId req.offerId = false →
      req.quantity = none →
      addBooking db req now newId pcode =
        Except.error (ApiError.validation "Please specify the quantity")) ∧
    (∀ offer q, findOffer db req.offerId = some offer →
      offer.isActive = true → 0 < offer.availableQuantity →
      now ≤ offer.pickupEnd → req.userId ≠ offer.seller →
      hasActiveBooking db req.userId req.offerId = false →
      req.quantity = some q → q < 1 →
      addBooking db req now newId pcode =
        Except.error (ApiError.validation "Booking validation failed")) ∧
    (∀ offer q, findOffer db req.offerId = some offer →
      offer.isActive = true → 0 < offer.availableQuantity →
      now ≤ offer.pickupEnd → req.userId ≠ offer.seller →
      hasActiveBooking db req.userId req.offerId = false →
      req.quantity = some q → 1 ≤ q →
      ∃ db2, addBooking db req now newId pcode =
          Except.ok (201, mkBookingDoc req offer newId pcode q, db2) ∧
        (mkBookingDoc req offer newId pcode q).seller = offer.seller ∧
        (mkBookingDoc req offer newId pcode q).totalPrice =
          offer.discountedPrice * q ∧
        (mkBookingDoc req offer newId pcode q).pickupTime = offer.pickupStart) := by
  refine ⟨?_, ?_, ?_, ?_, ?_, ?_, ?_, ?_⟩
  · intro hof
    simp [addBooking, hof]
  · intro offer hof hbad
    have hcond : (!offer.isActive || decide (offer.availableQuantity ≤ 0)) = true := by
      rcases hbad with hb | hb <;> simp [hb]
    simp [addBooking, hof, hcond]
  · intro offer hof hAct hQ hPast
    have hcond : (!offer.isActive || decide (offer.availableQuantity ≤ 0)) = false := by
      simp [hAct]
      omega
    simp [addBooking, hof, hcond, hPast]
  · intro offer hof hAct hQ hFut hOwn
    have hcond : (!offer.isActive || decide (offer.availableQuantity ≤ 0)) = false := by
      simp [hAct]
      omega
    have hnp : ¬ offer.pickupEnd < now := not_lt.mpr hFut
    simp [addBooking, hof, hcond, hnp, hOwn]
  · intro offer hof hAct hQ hFut hOwn hDup
    have hcond : (!offer.isActive || decide (offer.availableQuantity ≤ 0)) = false := by
      simp [hAct]
      omega
    have hnp : ¬ offer.pickupEnd < now := not_lt.mpr hFut
    simp [addBooking, hof, hcond, hnp, hOwn, hDup]
  · intro offer hof hAct hQ hFut hOwn hDup hq
    have hcond : (!offer.isActive || decide (offer.availableQuantity ≤ 0)) = false := by
      simp [hAct]
      omega
    have hnp : ¬ offer.pickupEnd < now := not_lt.mpr hFut
    simp [addBooking, hof, hcond, hnp, hOwn, hDup, hq]
  · intro offer q hof hAct hQ hFut hOwn hDup hq hq1
    have hcond : (!offer.isActive || decide (offer.availableQuantity ≤ 0)) = false := by
      simp [hAct]
      omega
    have hnp : ¬ offer.pickupEnd < now := not_lt.mpr hFut
    have hv : bookingValidate (mkBookingDoc req offer newId pcode q) = false := by
      simp [bookingValidate, mkBookingDoc]
      omega
    simp [addBooking, hof, hcond, hnp, hOwn, hDup, hq, bookingCreate, hv]
  · intro offer q hof hAct hQ hFut hOwn hDup hq hq1
    have hcond : (!offer.isActive || decide (offer.availableQuantity ≤ 0)) = false := by
      simp [hAct]
      omega
    have hnp : ¬ offer.pickupEnd < now := not_lt.mpr hFut
    have hv : bookingValidate (mkBookingDoc req offer newId pcode q) = true := by
      simp [bookingValidate, mkBookingDoc]
      omega
    have hres : addBooking db req now newId pcode =
        Except.ok (201, mkBookingDoc req offer newId pcode q,
          { bookingPreSave db (mkBookingDoc req offer newId pcode q) true true with
            bookings := db.bookings ++ [mkBookingDoc req offer newId pcode q] }) := by
      simp [addBooking, hof, hcond, hnp, hOwn, hDup, hq, bookingCreate, hv,
        bookingPreSave_bookings]
    refine ⟨_, hres, rfl, ?_, rfl⟩
    simp only [mkBookingDoc, quantityOrOne, hq]
    rw [if_neg (by omega)]

/-- Booking request that supplies no quantity. -/
def reqNoQuantity : AddBookingReq :=
  { offerId := 1, userId := 10, userRole := "user", quantity := none, status := none }

/-- C5 counterexample: against an existing, active offer with stock, a
future pickup window, a non-seller caller and no prior booking — i.e. none
of the claim's five error conditions — a request without a quantity still
raises an error (the bookingSchema `required` validator), instead of
creating a booking with the defaulted quantity and answering 201. -/
theorem addBooking_missing_quantity_counterexample :
    addBooking dbOfferOnly reqNoQuantity 15 1 "CODE11" =
      Except.error (ApiError.validation "Please specify the quantity") ∧
    findOffer dbOfferOnly 1 = some offerA ∧
    offerA.isActive = true ∧ 0 < offerA.availableQuantity ∧
    (15 : Int) ≤ offerA.pickupEnd ∧
    reqNoQuantity.userId ≠ offerA.seller ∧
    hasActiveBooking dbOfferOnly 10 1 = false := by
  decide

/-- C5 witness: the success clause at the standard request — the created
booking carries the offer's seller, totalPrice 40 × 2 and the offer's
pickupStart. -/
theorem addBooking_error_characterization_witness :
    ∃ db2, addBooking dbOfferOnly reqStd 15 1 "CODE11" =
        Except.ok (201, mkBookingDoc reqStd offerA 1 "CODE11" 2, db2) ∧
      (mkBookingDoc reqStd offerA 1 "CODE11" 2).seller = offerA.seller ∧
      (mkBookingDoc reqStd offerA 1 "CODE11" 2).totalPrice =
        offerA.discountedPrice * 2 ∧
      (mkBookingDoc reqStd offerA 1 "CODE11" 2).pickupTime = offerA.pickupStart :=
  (addBooking_error_characterization dbOfferOnly reqStd 15 1 "CODE11").2.2.2.2.2.2.2
    offerA 2 (by decide) (by decide) (by decide) (by decide) (by decide) (by decide)
    (by decide) (by decide)

/-! ## Booking status transitions (claims C1, C3) -/

/-- C1 (code_bug evidence): cancelling the standard pending booking
(quantity 2) through `updateBooking` succeeds and marks it cancelled, yet
leaves offer 1's availableQuantity at 3 — not the 5 the restore middleware
would produce — because `findByIdAndUpdate` runs no `save` middleware, so
the `pre('save')` branch that returns the quantity to the offer never
fires on this path. -/
theorem updateBooking_cancel_does_not_restore_quantity :
    (updateBooking dbAfterStd
        { bookingId := 1, userId := 10, userRole := "user",
          status := some BookingStatus.cancelled, cancellationReason := none } 16).map
        (fun p => ((findOffer p.2 1).map OfferDoc.availableQuantity,
                   (findBooking p.2 1).map BookingDoc.status)) =
      Except.ok (some 3, some BookingStatus.cancelled) ∧
    bookingStd.quantity = 2 ∧ (some (3 : Int) ≠ some (3 + 2 : Int)) := by
  decide

/-- Replacing every booking with a given id in a list replaces what a
lookup by that id finds, provided some booking with the id was present. -/
theorem find_replace (bs : List BookingDoc) (tid : Nat) (b2 : BookingDoc)
    (hex : (bs.find? (fun b => b.id = tid)).isSome = true) (hid : b2.id = tid) :
    (bs.map (fun b => if b.id = tid then b2 else b)).find? (fun b => b.id = tid) =
      some b2 := by
  induction bs with
  | nil => simp [List.find?] at hex
  | cons b bs ih =>
    by_cases hb : b.id = tid
    · simp [List.find?_cons, hb, hid]
    · simp only [List.find?_cons, hb, decide_False, Bool.false_eq_true, if_false,
        List.map_cons, if_neg hb] at hex ⊢
      exact ih hex

/-- Status and id of the rewritten booking document. -/
theorem updateBookingDoc_fields (booking : BookingDoc) (req : UpdateBookingReq)
    (status : BookingStatus) (now : Int) :
    (updateBookingDoc booking req status now).status = status ∧
    (updateBookingDoc booking req status now).id = booking.id := by
  unfold updateBookingDoc
  split_ifs <;> exact ⟨rfl, rfl⟩

/-- C3 (amended): `updateBooking` applies a requested status only along the
pending→{confirmed, cancelled} / confirmed→{completed, cancelled} machine
and rejects any other requested transition with a 400 error (the booking is
untouched — the embedding returns the error before any write); but
`completeBookingWithCode` completes any booking found in status pending or
confirmed, so pending→completed is additionally reachable through the
pickup-code path. -/
theorem booking_status_transitions (db : Db) (req : UpdateBookingReq) (now : Int)
    (code : String) (uid : Nat) :
    (∀ st db2, req.status = some st →
      updateBooking db req now = Except.ok (200, db2) →
      ∃ bk, findBooking db req.bookingId = some bk ∧
        validTransitions bk.status st = true ∧
        (findBooking db2 req.bookingId).map BookingDoc.status = some st) ∧
    (∀ st bk, req.status = some st →
      findBooking db req.bookingId = some bk →
      (bk.user = req.userId ∨ bk.seller = req.userId ∨ req.userRole = "admin") →
      validTransitions bk.status st = false →
      updateBooking db req now =
        Except.error (ApiError.http "Invalid status transition" 400)) ∧
    (∀ db2, completeBookingWithCode db code uid now = Except.ok (200, db2) →
      ∃ bk, bk ∈ db.bookings ∧ bk.pickupCode = code ∧
        (bk.status = BookingStatus.pending ∨ bk.status = BookingStatus.confirmed) ∧
        (findBooking db2 bk.id).map BookingDoc.status = some BookingStatus.completed) := by
  refine ⟨?_, ?_, ?_⟩
  · intro st db2 hst h
    unfold updateBooking at h
    split at h
    · cases h
    next bk hfind =>
      split at h
      · cases h
      split at h
      · next hnone => rw [hst] at hnone; cases hnone
      next status1 hs1 =>
        rw [hst] at hs1
        obtain rfl : st = status1 := Option.some_inj.mp hs1
        split at h
        · cases h
        next hvt =>
          split at h
          next hval =>
            simp only [Except.ok.injEq, Prod.mk.injEq] at h
            obtain ⟨-, hdb2⟩ := h
            subst hdb2
            have hfind2 : db.bookings.find? (fun b => b.id = req.bookingId) = some bk := by
              unfold findBooking at hfind
              exact hfind
            have hexis : (db.bookings.find? (fun b => b.id = req.bookingId)).isSome = true := by
              rw [hfind2]
              rfl
            have hbkid : bk.id = req.bookingId := by
              simpa using List.find?_some hfind2
            refine ⟨bk, hfind, by simpa using hvt, ?_⟩
            unfold findBooking
            dsimp only
            rw [find_replace db.bookings req.bookingId _ hexis
              (by rw [(updateBookingDoc_fields bk req st now).2]; exact hbkid)]
            simp [(updateBookingDoc_fields bk req st now).1]
          · cases h
  · intro st bk hst hfind hauth hvt
    unfold updateBooking
    rw [show findBooking db req.bookingId = some bk from hfind]
    have hcond : (decide ¬(bk.user = req.userId) && decide ¬(bk.seller = req.userId) &&
        decide ¬(req.userRole = "admin")) = false := by
      rcases hauth with ha | ha | ha <;> simp [ha]
    simp only [ne_eq, hcond, Bool.false_eq_true, if_false, hst, hvt, Bool.not_false,
      if_true]
  · intro db2 h
    unfold completeBookingWithCode at h
    split at h
    · cases h
    next booking hfind =>
      split at h
      · cases h
      next hsell =>
        split at h
        · cases h
        next db1 hsave =>
          simp only [Except.ok.injEq, Prod.mk.injEq] at h
          obtain ⟨-, hdb2⟩ := h
          subst hdb2
          have hmem := List.mem_of_find?_eq_some hfind
          have hp := List.find?_some hfind
          simp only [Bool.and_eq_true, decide_eq_true_eq, Bool.or_eq_true] at hp
          refine ⟨booking, hmem, hp.1, hp.2, ?_⟩
          unfold bookingSave at hsave
          split at hsave
          next hval =>
            simp only [Except.ok.injEq] at hsave
            subst hsave
            have hexis : (db.bookings.find? (fun b => b.id = booking.id)).isSome = true := by
              rw [List.find?_isSome]
              exact ⟨booking, hmem, by simp⟩
            unfold findBooking
            dsimp only
            rw [bookingPreSave_bookings]
            rw [find_replace db.bookings booking.id
              { booking with
                status := BookingStatus.completed,
                completedAt := some now } hexis rfl]
            rfl
          · cases hsave

/-- C3 counterexample: offer 1's standard booking is pending, yet
`completeBookingWithCode` (called by the seller, user 20, with the
booking's code) succeeds and moves it straight to completed — a
pending→completed transition, which the claimed state machine excludes and
says must be rejected with a 400 error. -/
theorem completeBookingWithCode_pending_counterexample :
    (findBooking dbAfterStd 1).map BookingDoc.status = some BookingStatus.pending ∧
    (completeBookingWithCode dbAfterStd "CODE11" 20 16).map
        (fun p => (findBooking p.2 1).map BookingDoc.status) =
      Except.ok (some BookingStatus.completed) ∧
    validTransitions BookingStatus.pending BookingStatus.completed = false := by
  decide

/-- Request of the C3 witness: the seller confirms the pending booking. -/
def reqConfirm : UpdateBookingReq :=
  { bookingId := 1, userId := 20, userRole := "seller",
    status := some BookingStatus.confirmed, cancellationReason := none }

/-- Database after the seller confirms the standard booking. -/
def dbConfirmed : Db :=
  { dbAfterStd with bookings := [{ bookingStd with status := BookingStatus.confirmed }] }

/-- C3 witness: the pending→confirmed update goes through and is a valid
transition of the machine. -/
theorem booking_status_transitions_witness :
    ∃ bk, findBooking dbAfterStd 1 = some bk ∧
      validTransitions bk.status BookingStatus.confirmed = true ∧
      (findBooking dbConfirmed 1).map BookingDoc.status =
        some BookingStatus.confirmed :=
  (booking_status_transitions dbAfterStd reqConfirm 16 "CODE11" 20).1
    BookingStatus.confirmed dbConfirmed (by decide) (by decide)

/-! ## Offer deletion cascade (claim C9) and offer update (claim C10) -/

/-- The cancellation rewrite of `deleteOffer` preserves each booking's
offer reference, so filtering out the deleted offer's bookings commutes
with it. -/
theorem cancel_filter (bs : List BookingDoc) (oid : Nat) (role : String) :
    ((bs.map (fun b =>
        if b.offer = oid &&
            (b.status = BookingStatus.pending || b.status = BookingStatus.confirmed) then
          { b with
            status := BookingStatus.cancelled,
            cancelledBy := some (if role = "admin" then "admin" else "seller"),
            cancellationReason := some "Offer was deleted by the seller" }
        else b)).filter (fun b => b.offer ≠ oid)) =
      bs.filter (fun b => b.offer ≠ oid) := by
  induction bs with
  | nil => rfl
  | cons b bs ih =>
    by_cases ho : b.offer = oid
    · by_cases hs : b.status = BookingStatus.pending ∨ b.status = BookingStatus.confirmed
      · simpa [List.filter_cons, ho, hs] using ih
      · simpa [List.filter_cons, ho, hs] using ih
    · simpa [List.filter_cons, ho] using ih

/-- C9: `deleteOffer` first rewrites every pending or confirmed booking of
the offer to status 'cancelled' with `cancelledBy` 'admin' or 'seller' and
the deletion reason (the cancellation phase), and the `pre('remove')` hook
then deletes every booking referencing the offer, so after a successful
`deleteOffer` the remaining bookings are exactly the other offers'
bookings, untouched, and none references the deleted offer. -/
theorem deleteOffer_cascade (db : Db) (offerId userId : Nat) (role : String) :
    (∀ b ∈ db.bookings, b.offer = offerId →
      (b.status = BookingStatus.pending ∨ b.status = BookingStatus.confirmed) →
      { b with
        status := BookingStatus.cancelled,
        cancelledBy := some (if role = "admin" then "admin" else "seller"),
        cancellationReason := some "Offer was deleted by the seller" } ∈
        (cancelOfferBookings db offerId role).bookings) ∧
    (∀ db2, deleteOffer db offerId userId role = Except.ok (200, db2) →
      db2 = offerRemove (cancelOfferBookings db offerId role) offerId ∧
      db2.bookings = db.bookings.filter (fun b => b.offer ≠ offerId) ∧
      ∀ b ∈ db2.bookings, b.offer ≠ offerId) := by
  constructor
  · intro b hb hoff hstat
    unfold cancelOfferBookings
    dsimp only
    refine List.mem_map.mpr ⟨b, hb, ?_⟩
    rw [if_pos (by simp [hoff, hstat])]
  · intro db2 h
    unfold deleteOffer at h
    split at h
    · cases h
    next offer hof =>
      split at h
      · cases h
      simp only [Except.ok.injEq, Prod.mk.injEq] at h
      obtain ⟨-, hdb2⟩ := h
      subst hdb2
      refine ⟨rfl, ?_, ?_⟩
      · unfold offerRemove cancelOfferBookings
        dsimp only
        exact cancel_filter db.bookings offerId role
      · intro b hb
        unfold offerRemove at hb
        dsimp only at hb
        have hp := (List.mem_filter.mp hb).2
        simpa using hp

/-- C9 witness: deleting offer 1 as its seller empties the booking list —
the standard pending booking referenced offer 1 and is gone. -/
theorem deleteOffer_cascade_witness :
    ({ bookingStd with
        status := BookingStatus.cancelled,
        cancelledBy := some "seller",
        cancellationReason := some "Offer was deleted by the seller" } ∈
      (cancelOfferBookings dbAfterStd 1 "seller").bookings) ∧
    ((deleteOffer dbAfterStd 1 20 "seller").map (fun p => p.2.bookings) =
      Except.ok []) :=
  ⟨by
    have hmem := (deleteOffer_cascade dbAfterStd 1 20 "seller").1 bookingStd
      (by decide) (by decide) (by decide)
    simpa using hmem,
   by decide⟩

/-- Looking an offer up in a list after replacing the offer with a given
id. -/
theorem find_replace_offer (os : List OfferDoc) (tid : Nat) (o2 : OfferDoc)
    (hex : (os.find? (fun o => o.id = tid)).isSome = true) (hid : o2.id = tid) :
    (os.map (fun o => if o.id = tid then o2 else o)).find? (fun o => o.id = tid) =
      some o2 := by
  induction os with
  | nil => simp [List.find?] at hex
  | cons o os ih =>
    by_cases ho : o.id = tid
    · simp [List.find?_cons, ho, hid]
    · simp only [List.find?_cons, ho, decide_False, Bool.false_eq_true, if_false,
        List.map_cons, if_neg ho] at hex ⊢
      exact ih hex

/-- C10 (amended): when `updateOffer` receives a new quantity of at least 1
from an authorized caller — and every other updated path passes its
validators (a title in the body is trimmed and must stay within 100
characters) — it sets availableQuantity to
`max 0 (availableQuantity + (newQuantity − quantity))` — hence never
negative — and fields absent from the body keep their values; a new
quantity below 1, or an over-long title, is rejected by the respective
update validator (a quantity of 0 additionally skips the availability
adjustment because of the JS truthiness test), leaving the offer entirely
unchanged. -/
theorem updateOffer_quantity_adjustment (db : Db) (offerId userId : Nat)
    (role : String) (body : UpdateOfferBody) :
    (∀ offer q, findOffer db offerId = some offer →
      (offer.seller = userId ∨ role = "admin") →
      body.quantity = some q → 1 ≤ q →
      (∀ t, body.title = some t → t.trim.length ≤ 100) →
      ∃ db2, updateOffer db offerId userId role body = Except.ok (200, db2) ∧
        findOffer db2 offerId = some
          { offer with
            title := (body.title.map String.trim).getD offer.title,
            isActive := body.isActive.getD offer.isActive,
            quantity := q,
            availableQuantity :=
              max 0 (offer.availableQuantity + (q - offer.quantity)) } ∧
        0 ≤ max 0 (offer.availableQuantity + (q - offer.quantity))) ∧
    (∀ offer q, findOffer db offerId = some offer →
      (offer.seller = userId ∨ role = "admin") →
      body.quantity = some q → q < 1 →
      updateOffer db offerId userId role body =
        Except.error (ApiError.validation "Quantity must be at least 1")) ∧
    (∀ offer t, findOffer db offerId = some offer →
      (offer.seller = userId ∨ role = "admin") →
      body.title = some t → 100 < t.trim.length →
      quantityUpdateInvalid body = false →
      updateOffer db offerId userId role body =
        Except.error (ApiError.validation "Title cannot be more than 100 characters")) := by
  refine ⟨?_, ?_, ?_⟩
  · intro offer q hof hauth hq hq1 htitle
    have hcond : (decide ¬(offer.seller = userId) && decide ¬(role = "admin")) = false := by
      rcases hauth with ha | ha <;> simp [ha]
    have hne : q ≠ 0 := by omega
    have hqv : quantityUpdateInvalid body = false := by
      simp only [quantityUpdateInvalid, hq, decide_eq_false_iff_not]
      omega
    have htv : titleUpdateInvalid body = false := by
      cases ht : body.title with
      | none => simp [titleUpdateInvalid, ht]
      | some t =>
        simp only [titleUpdateInvalid, ht, decide_eq_false_iff_not]
        exact not_lt.mpr (htitle t ht)
    have hoid : offer.id = offerId := by
      have hfind2 : db.offers.find? (fun o => o.id = offerId) = some offer := by
        unfold findOffer at hof
        exact hof
      simpa using List.find?_some hfind2
    have hexis : (db.offers.find? (fun o => o.id = offerId)).isSome = true := by
      unfold findOffer at hof
      rw [hof]
      rfl
    have hres : updateOffer db offerId userId role body =
        Except.ok (200, { db with offers := db.offers.map (fun o =>
          if o.id = offerId then
            { offer with
              title := (body.title.map String.trim).getD offer.title,
              isActive := body.isActive.getD offer.isActive,
              quantity := q,
              availableQuantity :=
                max 0 (offer.availableQuantity + (q - offer.quantity)) }
          else o) }) := by
      simp only [updateOffer, hof, ne_eq, hcond, Bool.false_eq_true, if_false, hqv,
        htv, hq, if_pos hne]
    refine ⟨_, hres, ?_, le_max_left 0 _⟩
    unfold findOffer
    dsimp only
    exact find_replace_offer db.offers offerId _ hexis hoid
  · intro offer q hof hauth hq hq1
    have hcond : (decide ¬(offer.seller = userId) && decide ¬(role = "admin")) = false := by
      rcases hauth with ha | ha <;> simp [ha]
    have hqv : quantityUpdateInvalid body = true := by
      simp only [quantityUpdateInvalid, hq, decide_eq_true_eq]
      omega
    simp only [updateOffer, hof, ne_eq, hcond, Bool.false_eq_true, if_false, hqv,
      if_true]
  · intro offer t hof hauth ht htlen hqv
    have hcond : (decide ¬(offer.seller = userId) && decide ¬(role = "admin")) = false := by
      rcases hauth with ha | ha <;> simp [ha]
    have htv : titleUpdateInvalid body = true := by
      simp only [titleUpdateInvalid, ht, decide_eq_true_eq]
      exact htlen
    simp only [updateOffer, hof, ne_eq, hcond, Bool.false_eq_true, if_false, hqv,
      htv, if_true]

/-- C10 counterexample: updating offer 1 (quantity 5, availableQuantity 5)
with a new quantity of 0 — a value the claim's formula would map to
availableQuantity max(0, 5 + (0 − 5)) = 0 — is instead rejected by the
schema's min-1 validation and changes nothing. -/
theorem updateOffer_zero_quantity_counterexample :
    updateOffer dbOfferOnly 1 20 "seller"
        { title := none, quantity := some 0, isActive := none } =
      Except.error (ApiError.validation "Quantity must be at least 1") ∧
    max 0 (offerA.availableQuantity + (0 - offerA.quantity)) = 0 ∧
    (findOffer dbOfferOnly 1).map OfferDoc.availableQuantity = some 5 := by
  decide

/-- C10 witness: raising the quantity from 5 to 8 raises availableQuantity
from 5 to max(0, 5 + 3) = 8. -/
theorem updateOffer_quantity_adjustment_witness :
    ∃ db2, updateOffer dbOfferOnly 1 20 "seller"
        { title := none, quantity := some 8, isActive := none } =
        Except.ok (200, db2) ∧
      findOffer db2 1 = some
        { offerA with
          title := ((none : Option String).map String.trim).getD offerA.title,
          isActive := (none : Option Bool).getD offerA.isActive,
          quantity := 8,
          availableQuantity := max 0 (offerA.availableQuantity + (8 - offerA.quantity)) } ∧
      0 ≤ max 0 (offerA.availableQuantity + (8 - offerA.quantity)) :=
  (updateOffer_quantity_adjustment dbOfferOnly 1 20 "seller"
      { title := none, quantity := some 8, isActive := none }).1
    offerA 8 (by decide) (by decide) (by decide) (by decide) (by simp)

/-! ## Review rating recalculation (claim C7) -/

/-- Sample store, no rating yet. -/
def storeS : StoreDoc := { id := 1, owner := 30, rating := none }

/-- The standard booking after completion (prerequisite for reviewing). -/
def completedBooking : BookingDoc := { bookingStd with status := BookingStatus.completed }

/-- Review draft: user 10 rates offer 1 / store 1 with 4 stars. -/
def reviewR : ReviewDoc :=
  { id := 1, user := 10, store := 1, offer := 1, booking := 1, rating := 4,
    isDeleted := false, isApproved := none }

/-- State before the review: offer, its completed booking, the store. -/
def dbReviewStart : Db :=
  { offers := [offerA], bookings := [completedBooking], stores := [storeS], reviews := [] }

/-- State after `addReview`: the post-save hook has written the store's
average (4); the controller's own recalculation failed silently for both
store and offer, so the offer still has no rating. -/
def dbAfterReview : Db :=
  { offers := [offerA], bookings := [completedBooking],
    stores := [{ storeS with rating := some 4 }], reviews := [reviewR] }

/-- C7 (code_bug evidence): creating the 4-star review updates the store's
rating to 4 through the reviewSchema post-save hook, but the offer's rating
is never recomputed (the controller's `calculateAverageRating` matches on
the nonexistent `isApproved` path, finds no reviews, writes rating 0 and
dies on the min-1 validator inside its catch block); deleting the only
review then leaves the store's rating frozen at 4 with zero reviews
remaining, where the claim requires it to be reset to 0. -/
theorem review_rating_recalculation_stale :
    addReview dbReviewStart 1 10 "user" reviewR = Except.ok (201, dbAfterReview) ∧
    (findStore dbAfterReview 1).map StoreDoc.rating = some (some 4) ∧
    (findOffer dbAfterReview 1).map OfferDoc.rating = some none ∧
    (deleteReview dbAfterReview 1 10 "user").map
        (fun p => ((findStore p.2 1).map StoreDoc.rating, p.2.reviews.length)) =
      Except.ok (some (some 4), 0) ∧
    (some (4 : Rat) ≠ some (0 : Rat)) := by
  have hcalc : calcAverageRatings
      { offers := [offerA], bookings := [completedBooking], stores := [storeS],
        reviews := [reviewR] } 1 = dbAfterReview := by
    unfold calcAverageRatings storeReviews storeSetRating
    norm_num [reviewR, storeS, offerA, completedBooking, bookingStd, mkBookingDoc,
      reqStd, quantityOrOne, dbAfterReview]
  have hcreate : reviewCreate dbReviewStart reviewR = Except.ok dbAfterReview := by
    show Except.ok (calcAverageRatings
      { offers := [offerA], bookings := [completedBooking], stores := [storeS],
        reviews := [reviewR] } 1) = Except.ok dbAfterReview
    rw [hcalc]
  have hadd : addReview dbReviewStart 1 10 "user" reviewR =
      Except.ok (201, dbAfterReview) := by
    show (match reviewCreate dbReviewStart reviewR with
      | Except.error e => Except.error e
      | Except.ok db1 =>
        Except.ok (201, calculateAverageRatingOffer (calculateAverageRatingStore db1 1) 1)) =
      Except.ok (201, dbAfterReview)
    rw [hcreate]
    show Except.ok (201, calculateAverageRatingOffer (calculateAverageRatingStore dbAfterReview 1) 1) =
      Except.ok (201, dbAfterReview)
    rw [show calculateAverageRatingStore dbAfterReview 1 = dbAfterReview from by decide,
      show calculateAverageRatingOffer dbAfterReview 1 = dbAfterReview from by decide]
  exact ⟨hadd, by decide, by decide, by decide, by decide⟩

end FoodSaver
